import Mathlib

/-!
# Service traits of `deepracer_simulation/GetWaypointSrv`

A shallow embedding of the generated header `GetWaypointSrv.h`.

* `struct GetWaypointSrv` becomes a Lean structure with the two data members
  `request` and `response`.  The headers that declare `GetWaypointSrvRequest`
  and `GetWaypointSrvResponse` are not in the source tree, so the two message
  types are type parameters of everything that mentions them.
* Every `static const char* value()` becomes a `String` constant and every
  `static const char* value(const T&)` becomes a function `valueOf` that takes
  the instance (C++ overloads `value` on arity; Lean needs two names).
* A template specialisation `Trait< ::deepracer_simulation::T >` becomes the
  namespace `ros.service_traits.Trait.T`.
-/

set_option autoImplicit false

namespace deepracer_simulation

/-- Embedding of `typedef GetWaypointSrvRequest Request;` (line 21). -/
abbrev GetWaypointSrv.Request (GetWaypointSrvRequest : Type) : Type :=
  GetWaypointSrvRequest

/-- Embedding of `typedef GetWaypointSrvResponse Response;` (line 22). -/
abbrev GetWaypointSrv.Response (GetWaypointSrvResponse : Type) : Type :=
  GetWaypointSrvResponse

/-- Embedding of `struct GetWaypointSrv` (lines 18-29): the data members
`Request request; Response response;`, typed through the two typedefs. -/
structure GetWaypointSrv (GetWaypointSrvRequest GetWaypointSrvResponse : Type) where
  request : GetWaypointSrv.Request GetWaypointSrvRequest
  response : GetWaypointSrv.Response GetWaypointSrvResponse

/-- Embedding of `typedef Request RequestType;` (line 26). -/
abbrev GetWaypointSrv.RequestType (GetWaypointSrvRequest : Type) : Type :=
  GetWaypointSrv.Request GetWaypointSrvRequest

/-- Embedding of `typedef Response ResponseType;` (line 27). -/
abbrev GetWaypointSrv.ResponseType (GetWaypointSrvResponse : Type) : Type :=
  GetWaypointSrv.Response GetWaypointSrvResponse

end deepracer_simulation

namespace ros.service_traits

open deepracer_simulation

/-! ## `MD5Sum< ::deepracer_simulation::GetWaypointSrv >` (lines 39-47) -/

/-- Embedding of `MD5Sum<GetWaypointSrv>::value()`: returns the string literal. -/
def MD5Sum.GetWaypointSrv.value : String :=
  "dd1c3c0f312afb554365a4b5e8f07a10"

/-- Embedding of `MD5Sum<GetWaypointSrv>::value(const GetWaypointSrv&)`:
`return value();`. -/
def MD5Sum.GetWaypointSrv.valueOf {Req Resp : Type}
    (_ : deepracer_simulation.GetWaypointSrv Req Resp) : String :=
  MD5Sum.GetWaypointSrv.value

/-! ## `DataType< ::deepracer_simulation::GetWaypointSrv >` (lines 49-57) -/

/-- Embedding of `DataType<GetWaypointSrv>::value()`: returns the string literal. -/
def DataType.GetWaypointSrv.value : String :=
  "deepracer_simulation/GetWaypointSrv"

/-- Embedding of `DataType<GetWaypointSrv>::value(const GetWaypointSrv&)`:
`return value();`. -/
def DataType.GetWaypointSrv.valueOf {Req Resp : Type}
    (_ : deepracer_simulation.GetWaypointSrv Req Resp) : String :=
  DataType.GetWaypointSrv.value

/-! ## `MD5Sum< ::deepracer_simulation::GetWaypointSrvRequest>` (lines 62-73) -/

/-- Embedding of `MD5Sum<GetWaypointSrvRequest>::value()`:
`return MD5Sum< ::deepracer_simulation::GetWaypointSrv >::value();`. -/
def MD5Sum.GetWaypointSrvRequest.value : String :=
  MD5Sum.GetWaypointSrv.value

/-- Embedding of `MD5Sum<GetWaypointSrvRequest>::value(const GetWaypointSrvRequest&)`:
`return value();`. -/
def MD5Sum.GetWaypointSrvRequest.valueOf {Req : Type} (_ : Req) : String :=
  MD5Sum.GetWaypointSrvRequest.value

/-! ## `DataType< ::deepracer_simulation::GetWaypointSrvRequest>` (lines 77-88) -/

/-- Embedding of `DataType<GetWaypointSrvRequest>::value()`:
`return DataType< ::deepracer_simulation::GetWaypointSrv >::value();`. -/
def DataType.GetWaypointSrvRequest.value : String :=
  DataType.GetWaypointSrv.value

/-- Embedding of `DataType<GetWaypointSrvRequest>::value(const GetWaypointSrvRequest&)`:
`return value();`. -/
def DataType.GetWaypointSrvRequest.valueOf {Req : Type} (_ : Req) : String :=
  DataType.GetWaypointSrvRequest.value

/-! ## `MD5Sum< ::deepracer_simulation::GetWaypointSrvResponse>` (lines 92-103) -/

/-- Embedding of `MD5Sum<GetWaypointSrvResponse>::value()`:
`return MD5Sum< ::deepracer_simulation::GetWaypointSrv >::value();`. -/
def MD5Sum.GetWaypointSrvResponse.value : String :=
  MD5Sum.GetWaypointSrv.value

/-- Embedding of `MD5Sum<GetWaypointSrvResponse>::value(const GetWaypointSrvResponse&)`:
`return value();`. -/
def MD5Sum.GetWaypointSrvResponse.valueOf {Resp : Type} (_ : Resp) : String :=
  MD5Sum.GetWaypointSrvResponse.value

/-! ## `DataType< ::deepracer_simulation::GetWaypointSrvResponse>` (lines 107-118) -/

/-- Embedding of `DataType<GetWaypointSrvResponse>::value()`:
`return DataType< ::deepracer_simulation::GetWaypointSrv >::value();`. -/
def DataType.GetWaypointSrvResponse.value : String :=
  DataType.GetWaypointSrv.value

/-- Embedding of `DataType<GetWaypointSrvResponse>::value(const GetWaypointSrvResponse&)`:
`return value();`. -/
def DataType.GetWaypointSrvResponse.valueOf {Resp : Type} (_ : Resp) : String :=
  DataType.GetWaypointSrvResponse.value

end ros.service_traits

/-! ## Calls of the accessors

The header declares six trait specialisations with two `value` overloads each.
To quantify over "any call of any accessor" the twelve overloads are collected
in one type, each constructor carrying the argument the overload receives. -/

namespace ros.service_traits

/-- The six trait specialisations declared in the header. -/
inductive Specialisation where
  | md5Srv
  | dataTypeSrv
  | md5Request
  | dataTypeRequest
  | md5Response
  | dataTypeResponse
  deriving DecidableEq, Repr

/-- A call of one of the twelve `value` overloads, with its argument. -/
inductive Call (Req Resp : Type) where
  | md5Srv
  | md5SrvOf (x : deepracer_simulation.GetWaypointSrv Req Resp)
  | dataTypeSrv
  | dataTypeSrvOf (x : deepracer_simulation.GetWaypointSrv Req Resp)
  | md5Request
  | md5RequestOf (x : Req)
  | dataTypeRequest
  | dataTypeRequestOf (x : Req)
  | md5Response
  | md5ResponseOf (x : Resp)
  | dataTypeResponse
  | dataTypeResponseOf (x : Resp)

/-- The specialisation a call is addressed to. -/
def Call.specialisation {Req Resp : Type} : Call Req Resp → Specialisation
  | .md5Srv | .md5SrvOf _ => .md5Srv
  | .dataTypeSrv | .dataTypeSrvOf _ => .dataTypeSrv
  | .md5Request | .md5RequestOf _ => .md5Request
  | .dataTypeRequest | .dataTypeRequestOf _ => .dataTypeRequest
  | .md5Response | .md5ResponseOf _ => .md5Response
  | .dataTypeResponse | .dataTypeResponseOf _ => .dataTypeResponse

/-- The string a call returns: each constructor runs the overload it stands for. -/
def Call.run {Req Resp : Type} : Call Req Resp → String
  | .md5Srv => MD5Sum.GetWaypointSrv.value
  | .md5SrvOf x => MD5Sum.GetWaypointSrv.valueOf x
  | .dataTypeSrv => DataType.GetWaypointSrv.value
  | .dataTypeSrvOf x => DataType.GetWaypointSrv.valueOf x
  | .md5Request => MD5Sum.GetWaypointSrvRequest.value
  | .md5RequestOf x => MD5Sum.GetWaypointSrvRequest.valueOf x
  | .dataTypeRequest => DataType.GetWaypointSrvRequest.value
  | .dataTypeRequestOf x => DataType.GetWaypointSrvRequest.valueOf x
  | .md5Response => MD5Sum.GetWaypointSrvResponse.value
  | .md5ResponseOf x => MD5Sum.GetWaypointSrvResponse.valueOf x
  | .dataTypeResponse => DataType.GetWaypointSrvResponse.value
  | .dataTypeResponseOf x => DataType.GetWaypointSrvResponse.valueOf x

/-- A lowercase hexadecimal digit: one of `0`-`9`, `a`-`f`. -/
def isLowerHexDigit (c : Char) : Bool :=
  ('0' ≤ c && c ≤ '9') || ('a' ≤ c && c ≤ 'f')

end ros.service_traits

/-! ## Theorems -/

namespace ros.service_traits

open deepracer_simulation

/-- C1: the no-argument checksum accessor of the service type,
`MD5Sum<GetWaypointSrv>::value()`, returns exactly the 32-character string
`"dd1c3c0f312afb554365a4b5e8f07a10"`. -/
theorem md5sum_service_value_literal :
    MD5Sum.GetWaypointSrv.value = "dd1c3c0f312afb554365a4b5e8f07a10" ∧
      MD5Sum.GetWaypointSrv.value.length = 32 :=
  ⟨rfl, by decide⟩

/-- C2: the no-argument type-name accessor of the service type,
`DataType<GetWaypointSrv>::value()`, returns exactly the string
`"deepracer_simulation/GetWaypointSrv"`. -/
theorem datatype_service_value_literal :
    DataType.GetWaypointSrv.value = "deepracer_simulation/GetWaypointSrv" :=
  rfl

/-- C3: checksum cross-consistency. The request checksum and the response
checksum each equal the service checksum, hence they equal each other. -/
theorem md5sum_cross_consistency :
    MD5Sum.GetWaypointSrvRequest.value = MD5Sum.GetWaypointSrv.value ∧
      MD5Sum.GetWaypointSrvResponse.value = MD5Sum.GetWaypointSrv.value ∧
      MD5Sum.GetWaypointSrvRequest.value = MD5Sum.GetWaypointSrvResponse.value :=
  ⟨rfl, rfl, rfl⟩

/-- C4: type-name cross-consistency. The request and the response sub-types
report the name of the service, `"deepracer_simulation/GetWaypointSrv"`, not a
name of their own. -/
theorem datatype_cross_consistency :
    DataType.GetWaypointSrvRequest.value = DataType.GetWaypointSrv.value ∧
      DataType.GetWaypointSrvResponse.value = DataType.GetWaypointSrv.value ∧
      DataType.GetWaypointSrvRequest.value = "deepracer_simulation/GetWaypointSrv" ∧
      DataType.GetWaypointSrvResponse.value = "deepracer_simulation/GetWaypointSrv" :=
  ⟨rfl, rfl, rfl, rfl⟩

/-- C5: no accessor can fail. Each of the twelve `value` overloads is embedded
as a total function into `String` (no error branch, no fuel), and on every
input the call returns a string, which is one of the two static literals. -/
theorem every_call_returns_a_static_string (Req Resp : Type) (c : Call Req Resp) :
    ∃ s : String, c.run = s ∧
      (s = "dd1c3c0f312afb554365a4b5e8f07a10" ∨
        s = "deepracer_simulation/GetWaypointSrv") := by
  refine ⟨c.run, rfl, ?_⟩
  cases c
  case md5Srv => exact Or.inl rfl
  case md5SrvOf x => exact Or.inl rfl
  case dataTypeSrv => exact Or.inr rfl
  case dataTypeSrvOf x => exact Or.inr rfl
  case md5Request => exact Or.inl rfl
  case md5RequestOf x => exact Or.inl rfl
  case dataTypeRequest => exact Or.inr rfl
  case dataTypeRequestOf x => exact Or.inr rfl
  case md5Response => exact Or.inl rfl
  case md5ResponseOf x => exact Or.inl rfl
  case dataTypeResponse => exact Or.inr rfl
  case dataTypeResponseOf x => exact Or.inr rfl

/-- C6: referential stability. Any two calls addressed to the same trait
specialisation return identical strings, whichever overload each call uses and
whatever argument it passes. -/
theorem calls_of_one_specialisation_agree (Req Resp : Type) (c₁ c₂ : Call Req Resp)
    (h : c₁.specialisation = c₂.specialisation) : c₁.run = c₂.run := by
  cases c₁ <;> cases c₂ <;> first | rfl | exact Specialisation.noConfusion h

/-- Witness for C6: a request-checksum call on the instance `7` and the
no-argument request-checksum call. -/
theorem calls_of_one_specialisation_agree_witness :
    (Call.md5RequestOf 7 : Call Nat Bool).specialisation
        = (Call.md5Request : Call Nat Bool).specialisation ∧
      (Call.md5RequestOf 7 : Call Nat Bool).run = (Call.md5Request : Call Nat Bool).run :=
  ⟨rfl, calls_of_one_specialisation_agree Nat Bool (Call.md5RequestOf 7) Call.md5Request rfl⟩

/-- C7, as stated, fails: the registered type name cannot be split into a
package component and a type component around the character `.`, because the
string holds no `.` at all. -/
theorem datatype_service_value_not_dotted :
    ¬ ∃ pkg ty : String, DataType.GetWaypointSrv.value = pkg ++ "." ++ ty := by
  rintro ⟨pkg, ty, h⟩
  have hmem : '.' ∈ DataType.GetWaypointSrv.value.data := by
    rw [h]
    simp [String.data_append]
  exact absurd hmem (by decide)

/-- C7, amended: the registered type name is slash-separated. The string
returned by `DataType<GetWaypointSrv>::value()` is the package component
`deepracer_simulation`, the character `/`, and the type component
`GetWaypointSrv`; splitting at `/` yields exactly these two components, and the
string holds no `.`. -/
theorem datatype_service_value_slash_separated :
    DataType.GetWaypointSrv.value = "deepracer_simulation" ++ "/" ++ "GetWaypointSrv" ∧
      DataType.GetWaypointSrv.value.data.splitOn '/'
        = ["deepracer_simulation".data, "GetWaypointSrv".data] ∧
      '.' ∉ DataType.GetWaypointSrv.value.data :=
  ⟨by decide, by decide, by decide⟩

/-- C8: the service descriptor pairs the two message types under aliases. Both
alias pairs name the request and the response type, and a descriptor is
determined by exactly its two fields `request` and `response`: reading the two
fields is a bijection onto the pairs of a request and a response. -/
theorem service_descriptor_pairs_request_and_response (Req Resp : Type) :
    GetWaypointSrv.Request Req = Req ∧
      GetWaypointSrv.RequestType Req = GetWaypointSrv.Request Req ∧
      GetWaypointSrv.Response Resp = Resp ∧
      GetWaypointSrv.ResponseType Resp = GetWaypointSrv.Response Resp ∧
      Function.Bijective
        (fun x : GetWaypointSrv Req Resp =>
          ((x.request, x.response) :
            GetWaypointSrv.RequestType Req × GetWaypointSrv.ResponseType Resp)) := by
  refine ⟨rfl, rfl, rfl, rfl, ?_, ?_⟩
  · rintro ⟨r₁, p₁⟩ ⟨r₂, p₂⟩ h
    cases h
    rfl
  · rintro ⟨r, p⟩
    exact ⟨⟨r, p⟩, rfl⟩

/-- C9: instance independence. For every instance of the service, request or
response type, the one-argument overload of `MD5Sum` and of `DataType` returns
the string of the matching no-argument overload; hence any two instances of
one type give the same string, whatever their field contents. -/
theorem value_is_instance_independent (Req Resp : Type) :
    (∀ x : GetWaypointSrv Req Resp,
        MD5Sum.GetWaypointSrv.valueOf x = MD5Sum.GetWaypointSrv.value) ∧
      (∀ x : GetWaypointSrv Req Resp,
        DataType.GetWaypointSrv.valueOf x = DataType.GetWaypointSrv.value) ∧
      (∀ x : Req,
        MD5Sum.GetWaypointSrvRequest.valueOf x = MD5Sum.GetWaypointSrvRequest.value) ∧
      (∀ x : Req,
        DataType.GetWaypointSrvRequest.valueOf x = DataType.GetWaypointSrvRequest.value) ∧
      (∀ x : Resp,
        MD5Sum.GetWaypointSrvResponse.valueOf x = MD5Sum.GetWaypointSrvResponse.value) ∧
      (∀ x : Resp,
        DataType.GetWaypointSrvResponse.valueOf x = DataType.GetWaypointSrvResponse.value) ∧
      (∀ x y : GetWaypointSrv Req Resp,
        MD5Sum.GetWaypointSrv.valueOf x = MD5Sum.GetWaypointSrv.valueOf y) ∧
      (∀ x y : GetWaypointSrv Req Resp,
        DataType.GetWaypointSrv.valueOf x = DataType.GetWaypointSrv.valueOf y) ∧
      (∀ x y : Req,
        MD5Sum.GetWaypointSrvRequest.valueOf x = MD5Sum.GetWaypointSrvRequest.valueOf y) ∧
      (∀ x y : Req,
        DataType.GetWaypointSrvRequest.valueOf x = DataType.GetWaypointSrvRequest.valueOf y) ∧
      (∀ x y : Resp,
        MD5Sum.GetWaypointSrvResponse.valueOf x = MD5Sum.GetWaypointSrvResponse.valueOf y) ∧
      (∀ x y : Resp,
        DataType.GetWaypointSrvResponse.valueOf x
          = DataType.GetWaypointSrvResponse.valueOf y) :=
  ⟨fun _ => rfl, fun _ => rfl, fun _ => rfl, fun _ => rfl, fun _ => rfl, fun _ => rfl,
    fun _ _ => rfl, fun _ _ => rfl, fun _ _ => rfl, fun _ _ => rfl, fun _ _ => rfl,
    fun _ _ => rfl⟩

/-- C10: the checksum is a well-formed MD5 hex digest. For the service, the
request and the response type, the string returned by `MD5Sum<T>::value()` has
length exactly 32 and every character of it is a lowercase hexadecimal digit. -/
theorem md5sum_is_lowercase_hex_digest :
    (MD5Sum.GetWaypointSrv.value.length = 32 ∧
        ∀ c ∈ MD5Sum.GetWaypointSrv.value.data, isLowerHexDigit c = true) ∧
      (MD5Sum.GetWaypointSrvRequest.value.length = 32 ∧
        ∀ c ∈ MD5Sum.GetWaypointSrvRequest.value.data, isLowerHexDigit c = true) ∧
      (MD5Sum.GetWaypointSrvResponse.value.length = 32 ∧
        ∀ c ∈ MD5Sum.GetWaypointSrvResponse.value.data, isLowerHexDigit c = true) :=
  ⟨⟨by decide, by decide⟩, ⟨by decide, by decide⟩, ⟨by decide, by decide⟩⟩

end ros.service_traits
